import Mathlib

/-!
Verification of the pnpizza social-post generator.

This file shallowly embeds the generation pipeline of
`src/services/geminiService.ts`, the serverless proxy of
`src/api/generate.ts`, and the media-preparation logic of
`src/components/InputSection.tsx` (with the simpler variant in
`src/unnamed/part_000`), and proves properties about them.

Modelling conventions:
* JavaScript values that may be `undefined` are modelled with `Option`.
* Fallible code (a `throw` caught by the surrounding `try`) is modelled
  with `Except String`.
* The external AI provider is modelled as inputs: the parsed outcome of
  the text call is a parameter of type `Except String TextDataJS`
  (`Except.error` models `JSON.parse` throwing on malformed text), and
  image generation is an oracle function `ImageRequest → ImageResult`.
* JavaScript floating point arithmetic in the image-compression loop is
  modelled with exact rational arithmetic (`ℚ`).
* Apostrophes inside string literals are written with the `\x27` escape.
-/

namespace PnpSocial

/-- The four target platforms, in the `Object.values(PLATFORMS)` order of
`src/constants.ts`. -/
inductive Platform where
  | linkedin
  | facebook
  | twitter
  | instagram
deriving DecidableEq, Repr

/-- Display names from the `PLATFORMS` record in `src/constants.ts`. -/
def platformName : Platform → String
  | .linkedin => "LinkedIn"
  | .facebook => "Facebook"
  | .twitter => "Twitter"
  | .instagram => "Instagram"

/-- The `Object.values(PLATFORMS)` list used for the image fan-out. -/
def platformsList : List Platform :=
  [Platform.linkedin, Platform.facebook, Platform.twitter, Platform.instagram]

/-- Aspect-ratio table from `src/constants.ts` (used by the direct-call
implementation in `src/services/geminiService.ts`). -/
def PLATFORM_ASPECT_RATIOS : Platform → String
  | .linkedin => "4:3"
  | .facebook => "1:1"
  | .twitter => "16:9"
  | .instagram => "1:1"

/-- Aspect-ratio table hard-coded in `src/api/generate.ts` (the proxied
implementation). -/
def API_PLATFORM_ASPECT_RATIOS : Platform → String
  | .linkedin => "1:1"
  | .facebook => "1:1"
  | .twitter => "16:9"
  | .instagram => "1:1"

/-- JavaScript `String.prototype.startsWith`, embedded at the character
level (equivalent to Lean's `String.startsWith`, but reducible by the
kernel). -/
def strStartsWith (s pre : String) : Bool :=
  pre.data.isPrefixOf s.data

/-- Media kind tag, `'image' | 'video'` in `src/types.ts`. -/
inductive MediaType where
  | image
  | video
deriving DecidableEq, Repr

/-- String form of a media kind, as interpolated into the prompt. -/
def mediaTypeName : MediaType → String
  | .image => "image"
  | .video => "video"

/-- The `UploadedMedia` record of `src/types.ts`. -/
structure UploadedMedia where
  base64 : String
  mimeType : String
deriving DecidableEq, Repr

/-- The `media` field of a `SocialPost` (`src/types.ts`). -/
structure MediaRef where
  url : String
  type : MediaType
deriving DecidableEq, Repr

/-- A `SocialPost` record (`src/types.ts`).  `text` and `hashtags` are
`Option`s because the untyped JavaScript assembly can store `undefined`
in them when the provider response misses a field; `hashtags = none` also
models the key being absent on the three non-Instagram posts. -/
structure SocialPost where
  platform : Platform
  text : Option String
  hashtags : Option (List String)
  media : MediaRef
deriving DecidableEq, Repr

/-- The nested Instagram object of the parsed provider response.  Every
field is an `Option` because `JSON.parse` performs no schema validation:
a missing JSON field reads back as `undefined`. -/
structure InstagramJS where
  caption : Option String
  hashtags : Option (List String)
  image_prompt : Option String
deriving DecidableEq, Repr

/-- The parsed provider text response (`GeminiTextResponse` in
`src/types.ts`), with `Option` fields for possibly-missing JSON keys. -/
structure TextDataJS where
  linkedin : Option String
  facebook : Option String
  twitter : Option String
  instagram : Option InstagramJS
deriving DecidableEq, Repr

/-- A request to `ai.models.generateImages` as built in the fan-out of
`generateSocialPosts` / the proxy handler. -/
structure ImageRequest where
  model : String
  prompt : String
  numberOfImages : Nat
  outputMimeType : String
  aspectRatio : String
deriving DecidableEq, Repr

/-- One generated image inside an image-generation response. -/
structure GeneratedImage where
  imageBytes : String
deriving DecidableEq, Repr

/-- An image-generation response; `generatedImages` is `none` when the
field is missing and `some []` when it is an empty array (the source
checks `!res.generatedImages || res.generatedImages.length === 0`). -/
structure ImageResult where
  generatedImages : Option (List GeneratedImage)
deriving DecidableEq, Repr

/-- The static `BrandVoice` configuration record. -/
structure BrandVoice where
  websiteUrl : String
  description : String
  keywords : String
  phrasesToUse : String
  phrasesToAvoid : String

/-- The `PNP_PIZZA_BRAND_VOICE` constant (identical in
`src/services/geminiService.ts` and `src/api/generate.ts`). -/
def PNP_PIZZA_BRAND_VOICE : BrandVoice :=
  { websiteUrl := "https://pnpizza.com/"
  , description := "A family-owned neighborhood pizzeria in Natick, MA, serving authentic Italian food like pizza, subs, and pasta for over 40 years. The tone is friendly, welcoming, and focuses on fresh, quality ingredients and community."
  , keywords := "P&P Pizza, Natick MA, pizza, subs, pasta, authentic Italian, family-owned, fresh ingredients, homemade"
  , phrasesToUse := "Come on in!, Family-owned and operated, Authentic Italian recipes, Made with fresh, quality ingredients, Your neighborhood pizzeria, Daily specials"
  , phrasesToAvoid := "gourmet, artisanal, cheap, fast food, corporate jargon" }

/-- The `buildPrompt` function of `src/services/geminiService.ts`.  Note
the template literal contributing the Idea line there contains a line
holding four space characters between the two newlines. -/
def buildPrompt (idea : String) (mediaType : Option MediaType) : String :=
  let brandVoice := PNP_PIZZA_BRAND_VOICE
  let prompt := "You are the social media manager for P&P Pizza, a beloved family-owned pizzeria. Based on the following idea, generate social media posts for LinkedIn, Facebook, Twitter/X, and Instagram."
  let prompt := match mediaType with
    | some mt => prompt ++ ("\n\nA user-provided " ++ mediaTypeName mt ++ " is included. Analyze it carefully. The generated text content (captions, posts) MUST be directly related to and complementary to THIS specific " ++ mediaTypeName mt ++ ". The goal is to create text that would be posted alongside this " ++ mediaTypeName mt ++ ".")
    | none => prompt
  let prompt := prompt ++ ("\n    \n    Idea: \"" ++ idea ++ "\"\n    ")
  let prompt := prompt ++ "\n\nAdhere to the P&P Pizza brand voice guidelines strictly:"
  let prompt := prompt ++ ("\n- **Primary Source for Brand Voice**: Analyze their website: \"" ++ brandVoice.websiteUrl ++ "\"")
  let prompt := prompt ++ ("\n- **Brand Description**: " ++ brandVoice.description)
  let prompt := prompt ++ ("\n- **Keywords to Include**: " ++ brandVoice.keywords)
  let prompt := prompt ++ ("\n- **Phrases to Use**: " ++ brandVoice.phrasesToUse)
  let prompt := prompt ++ ("\n- **Phrases to Avoid**: " ++ brandVoice.phrasesToAvoid)
  let prompt := match mediaType with
    | some mt => prompt ++ ("\n\nFor the \x27image_prompt\x27 field for Instagram, just return a brief, one-sentence description of the provided " ++ mediaTypeName mt ++ ". Do not generate a new image prompt.")
    | none => prompt ++ "\n\nFor Instagram, create a compelling image generation prompt based on the core idea and brand voice. The image should look like authentic, delicious food from a classic neighborhood pizzeria."
  prompt ++ "\n\nProvide the output in the requested JSON format."

/-- The `buildPrompt` function of `src/api/generate.ts`.  Its Idea-line
template has a genuinely empty line where the direct-call variant has a
line of four spaces; everything else is character-for-character the
same. -/
def api_buildPrompt (idea : String) (mediaType : Option MediaType) : String :=
  let brandVoice := PNP_PIZZA_BRAND_VOICE
  let prompt := "You are the social media manager for P&P Pizza, a beloved family-owned pizzeria. Based on the following idea, generate social media posts for LinkedIn, Facebook, Twitter/X, and Instagram."
  let prompt := match mediaType with
    | some mt => prompt ++ ("\n\nA user-provided " ++ mediaTypeName mt ++ " is included. Analyze it carefully. The generated text content (captions, posts) MUST be directly related to and complementary to THIS specific " ++ mediaTypeName mt ++ ". The goal is to create text that would be posted alongside this " ++ mediaTypeName mt ++ ".")
    | none => prompt
  let prompt := prompt ++ ("\n\n    Idea: \"" ++ idea ++ "\"\n    ")
  let prompt := prompt ++ "\n\nAdhere to the P&P Pizza brand voice guidelines strictly:"
  let prompt := prompt ++ ("\n- **Primary Source for Brand Voice**: Analyze their website: \"" ++ brandVoice.websiteUrl ++ "\"")
  let prompt := prompt ++ ("\n- **Brand Description**: " ++ brandVoice.description)
  let prompt := prompt ++ ("\n- **Keywords to Include**: " ++ brandVoice.keywords)
  let prompt := prompt ++ ("\n- **Phrases to Use**: " ++ brandVoice.phrasesToUse)
  let prompt := prompt ++ ("\n- **Phrases to Avoid**: " ++ brandVoice.phrasesToAvoid)
  let prompt := match mediaType with
    | some mt => prompt ++ ("\n\nFor the \x27image_prompt\x27 field for Instagram, just return a brief, one-sentence description of the provided " ++ mediaTypeName mt ++ ". Do not generate a new image prompt.")
    | none => prompt ++ "\n\nFor Instagram, create a compelling image generation prompt based on the core idea and brand voice. The image should look like authentic, delicious food from a classic neighborhood pizzeria."
  prompt ++ "\n\nProvide the output in the requested JSON format."

/-- Message of the JavaScript `TypeError` raised when a property is read
off `undefined`, as happens when `textData.instagram` is missing. -/
def undefinedReadMsg (field : String) : String :=
  "Cannot read properties of undefined (reading \x27" ++ field ++ "\x27)"

/-- Fallback image prompt used when `textData.instagram.image_prompt` is
falsy (`undefined` or the empty string). -/
def fallbackImagePrompt (idea : String) : String :=
  "A visually stunning image representing: " ++ idea ++ "."

/-- Extraction of one data URL from one image-generation result,
mirroring the body of the `imageResults.map` callback: throw when
`generatedImages` is missing or empty, else take the first image. -/
def urlOfResult (res : ImageResult) : Except String String :=
  match res.generatedImages with
  | none => .error "Image generation failed to return an image."
  | some [] => .error "Image generation failed to return an image."
  | some (g :: _) => .ok ("data:image/jpeg;base64," ++ g.imageBytes)

/-- JavaScript `Array.prototype.map` with a callback that may throw:
stops at the first failing element. -/
def mapUrls : List ImageResult → Except String (List String)
  | [] => .ok []
  | r :: rs =>
    match urlOfResult r with
    | .error e => .error e
    | .ok u =>
      match mapUrls rs with
      | .error e => .error e
      | .ok us => .ok (u :: us)

/-- Default used only to give `List.getD` a second argument; every call
site indexes a list that provably has four elements. -/
def defaultMediaRef : MediaRef := { url := "", type := MediaType.image }

/-- Step 3 of both implementations: the `finalPosts` array literal.
Reading `textData.instagram.caption` throws when `instagram` is
`undefined`; the three other `text` fields and the Instagram `hashtags`
are plain (possibly `undefined`) property reads. -/
def assemblePosts (textData : TextDataJS) (mediaData : List MediaRef) :
    Except String (List SocialPost) :=
  match textData.instagram with
  | none => .error (undefinedReadMsg "caption")
  | some ig => .ok
      [ { platform := Platform.linkedin, text := textData.linkedin
        , hashtags := none, media := mediaData.getD 0 defaultMediaRef }
      , { platform := Platform.facebook, text := textData.facebook
        , hashtags := none, media := mediaData.getD 1 defaultMediaRef }
      , { platform := Platform.twitter, text := textData.twitter
        , hashtags := none, media := mediaData.getD 2 defaultMediaRef }
      , { platform := Platform.instagram, text := ig.caption
        , hashtags := ig.hashtags, media := mediaData.getD 3 defaultMediaRef } ]

/-- Result of one generation call: the outcome (posts or the wrapped
error message thrown out of the `catch` block) together with the list of
image-generation requests issued along the way. -/
structure GenOutcome where
  result : Except String (List SocialPost)
  imageRequests : List ImageRequest
deriving Repr

/-- Wrapping performed by the `catch` block: every internal error is
rethrown as `Failed to generate content: <message>`. -/
def wrapError : Except String (List SocialPost) → Except String (List SocialPost)
  | .error e => .error ("Failed to generate content: " ++ e)
  | .ok posts => .ok posts

/-- The `const imagePrompt = textData.instagram.image_prompt || ...`
line: JavaScript `||` falls back when the field is `undefined` or the
empty string. -/
def imagePromptOf (idea : String) (ig : InstagramJS) : String :=
  match ig.image_prompt with
  | some p => if p = "" then fallbackImagePrompt idea else p
  | none => fallbackImagePrompt idea

/-- The `Object.values(PLATFORMS).map(platform => generateImages(...))`
fan-out: one request per platform, parameterized by the aspect-ratio
table of the respective implementation. -/
def imageRequestsFor (ratios : Platform → String) (imagePrompt : String) :
    List ImageRequest :=
  platformsList.map (fun pl =>
    { model := "imagen-4.0-generate-001", prompt := imagePrompt
    , numberOfImages := 1, outputMimeType := "image/jpeg"
    , aspectRatio := ratios pl })

/-- The generation pipeline of `generateSocialPosts` in
`src/services/geminiService.ts`, after the text call has returned.
`parsed` is the outcome of `JSON.parse(textResult.text)` (`Except.error`
models the parse throwing on malformed JSON) and `gen` is the
image-generation provider. -/
def generateSocialPostsCore (idea : String) (uploadedMedia : Option UploadedMedia)
    (parsed : Except String TextDataJS) (gen : ImageRequest → ImageResult) :
    GenOutcome :=
  match parsed with
  | .error e => { result := .error ("Failed to generate content: " ++ e), imageRequests := [] }
  | .ok textData =>
    match uploadedMedia with
    | some um =>
      let mediaUrl := "data:" ++ um.mimeType ++ ";base64," ++ um.base64
      let ty := if strStartsWith um.mimeType "video" then MediaType.video else MediaType.image
      let mediaData := List.replicate 4 { url := mediaUrl, type := ty }
      { result := wrapError (assemblePosts textData mediaData), imageRequests := [] }
    | none =>
      match textData.instagram with
      | none =>
        { result := .error ("Failed to generate content: " ++ undefinedReadMsg "image_prompt")
        , imageRequests := [] }
      | some ig =>
        let requests := imageRequestsFor PLATFORM_ASPECT_RATIOS (imagePromptOf idea ig)
        let results := requests.map gen
        match mapUrls results with
        | .error e =>
          { result := .error ("Failed to generate content: " ++ e), imageRequests := requests }
        | .ok urls =>
          let mediaData := urls.map (fun u => { url := u, type := MediaType.image })
          { result := wrapError (assemblePosts textData mediaData), imageRequests := requests }

/-- The generation pipeline of the proxy `handler` in
`src/api/generate.ts` after request validation, which is line-for-line
the same except that it consults its own `PLATFORM_ASPECT_RATIOS`
table. -/
def apiGenerateCore (idea : String) (uploadedMedia : Option UploadedMedia)
    (parsed : Except String TextDataJS) (gen : ImageRequest → ImageResult) :
    GenOutcome :=
  match parsed with
  | .error e => { result := .error ("Failed to generate content: " ++ e), imageRequests := [] }
  | .ok textData =>
    match uploadedMedia with
    | some um =>
      let mediaUrl := "data:" ++ um.mimeType ++ ";base64," ++ um.base64
      let ty := if strStartsWith um.mimeType "video" then MediaType.video else MediaType.image
      let mediaData := List.replicate 4 { url := mediaUrl, type := ty }
      { result := wrapError (assemblePosts textData mediaData), imageRequests := [] }
    | none =>
      match textData.instagram with
      | none =>
        { result := .error ("Failed to generate content: " ++ undefinedReadMsg "image_prompt")
        , imageRequests := [] }
      | some ig =>
        let requests := imageRequestsFor API_PLATFORM_ASPECT_RATIOS (imagePromptOf idea ig)
        let results := requests.map gen
        match mapUrls results with
        | .error e =>
          { result := .error ("Failed to generate content: " ++ e), imageRequests := requests }
        | .ok urls =>
          let mediaData := urls.map (fun u => { url := u, type := MediaType.image })
          { result := wrapError (assemblePosts textData mediaData), imageRequests := requests }

/-- Maximum pixel dimension used by `compressImage` in
`src/components/InputSection.tsx`. -/
def MAX_DIMENSION : ℚ := 2048

/-- Downscaling step of `compressImage`: shrink so that neither side
exceeds `MAX_DIMENSION`, keeping the aspect ratio.  The JavaScript
computes in floating point; this model computes exactly in `ℚ`. -/
def resizeDims (w h : ℕ) : ℚ × ℚ :=
  if (w : ℚ) > MAX_DIMENSION ∨ (h : ℚ) > MAX_DIMENSION then
    if (w : ℚ) > (h : ℚ) then
      (MAX_DIMENSION, ((h : ℚ) / (w : ℚ)) * MAX_DIMENSION)
    else
      (((w : ℚ) / (h : ℚ)) * MAX_DIMENSION, MAX_DIMENSION)
  else ((w : ℚ), (h : ℚ))

/-- Size ceiling of the quality-reduction loop:
`TARGET_SIZE_MB * 1024 * 1024 * 1.37` with `TARGET_SIZE_MB = 10`,
computed exactly in `ℚ`. -/
def compressTarget : ℚ := 10 * 1024 * 1024 * (137 / 100)

/-- The quality-reduction loop of `compressImage`:
`while (base64.length > target && quality > 0.5) { quality -= 0.1; re-encode }`.
`encSize` maps a quality to the length of the base64 encoding the canvas
produces at that quality.  The loop is embedded with explicit fuel;
`compressLoop_fuel_free` below proves 4 units of fuel always suffice
from the starting quality `0.9`, so the fuel is not a semantic
restriction.  Returns the final quality, the final encoding length and
the number of quality-reduction steps performed. -/
def compressLoop (encSize : ℚ → ℕ) : ℕ → ℚ → ℕ → ℚ × ℕ × ℕ
  | 0, q, len => (q, len, 0)
  | fuel + 1, q, len =>
    if ((len : ℚ) > compressTarget ∧ q > 1 / 2) then
      let q2 := q - 1 / 10
      let r := compressLoop encSize fuel q2 (encSize q2)
      (r.1, r.2.1, r.2.2 + 1)
    else (q, len, 0)

/-- The whole quality loop of `compressImage`, starting at quality `0.9`
with the encoding produced at that quality. -/
def compressImageLoop (encSize : ℚ → ℕ) (fuel : ℕ) : ℚ × ℕ × ℕ :=
  compressLoop encSize fuel (9 / 10) (encSize (9 / 10))

/-- A browser `File` as far as the media-preparation code inspects it:
byte size, MIME type, and the data URL the `FileReader` would produce
for it. -/
structure FileModel where
  size : ℕ
  type : String
  dataUrl : String
deriving DecidableEq, Repr

/-- The `reader.result.split(',')[1]` extraction of the base64 payload
from a data URL. -/
def readBase64 (f : FileModel) : String :=
  (f.dataUrl.splitOn ",").getD 1 ""

/-- Allow-list of the `processFile` variant in `src/unnamed/part_000`
(no HEIC/HEIF). -/
def simpleAcceptedTypes : List String :=
  ["image/png", "image/jpeg", "image/webp", "video/mp4", "video/webm"]

/-- Allow-list of the compressing `processFile` variant in
`src/components/InputSection.tsx`. -/
def compressAcceptedTypes : List String :=
  ["image/png", "image/jpeg", "image/webp", "image/heic", "image/heif", "video/mp4", "video/webm"]

/-- The `processFile` variant of `src/unnamed/part_000` (20MB ceiling,
no compression), as a transition on the `uploadedMedia` state.  Returns
the new state and the alert message, if any. -/
def processFileSimple (file : Option FileModel) (prior : Option UploadedMedia) :
    Option UploadedMedia × Option String :=
  match file with
  | none => (prior, none)
  | some f =>
    if f.size > 20 * 1024 * 1024 then
      (prior, some "File is too large. Please select a file under 20MB.")
    else if ¬ (f.type ∈ simpleAcceptedTypes) then
      (prior, some ("Unsupported file type: " ++ f.type ++ ". Please use PNG, JPG, WEBP, MP4, or WEBM."))
    else
      (some { base64 := readBase64 f, mimeType := f.type }, none)

/-- The compressing `processFile` variant of
`src/components/InputSection.tsx` (100MB ceiling, HEIC/HEIF allowed,
images run through `compressImage`).  The canvas pipeline of
`compressImage` is abstracted by the `compress` oracle; `Except.error`
models its promise rejecting. -/
def processFileCompress (compress : FileModel → Except String UploadedMedia)
    (file : Option FileModel) (prior : Option UploadedMedia) :
    Option UploadedMedia × Option String :=
  match file with
  | none => (prior, none)
  | some f =>
    if f.size > 100 * 1024 * 1024 then
      (prior, some "File is too large. Please select a file under 100MB.")
    else if ¬ (f.type ∈ compressAcceptedTypes) then
      (prior, some ("Unsupported file type: " ++ f.type ++ ". Please use PNG, JPG, WEBP, HEIC, MP4, or WEBM."))
    else if strStartsWith f.type "image/" then
      match compress f with
      | .ok um => (some um, none)
      | .error _ => (prior, some "Failed to process image. Please try a different file.")
    else
      (some { base64 := readBase64 f, mimeType := f.type }, none)

/-- A `DataTransferItem` of a clipboard event: its `kind`, its `type`,
and the file `getAsFile()` would return (`none` models a `null`
return). -/
structure ClipItem where
  kind : String
  type : String
  file : Option FileModel
deriving DecidableEq, Repr

/-- The per-item guard of the paste loop:
`items[i].kind === 'file' && items[i].type.startsWith('image/')`. -/
def isImageFileItem (it : ClipItem) : Bool :=
  it.kind == "file" && strStartsWith it.type "image/"

/-- The `getAsFile()` call: returns the item file only for items of kind
`file`. -/
def getAsFile (it : ClipItem) : Option FileModel :=
  if it.kind == "file" then it.file else none

/-- The scan of `handlePaste` over `event.clipboardData.items`,
returning the files handed to `processFile`, in order: the loop stops at
the first image item whose `getAsFile()` is non-null, and skips items
whose `getAsFile()` returns `null`. -/
def pasteScan : List ClipItem → List FileModel
  | [] => []
  | it :: rest =>
    if isImageFileItem it then
      match getAsFile it with
      | some f => [f]
      | none => pasteScan rest
    else pasteScan rest

/-- The `handlePaste` listener: does nothing while loading or without
clipboard data, otherwise scans the items. -/
def handlePasteFiles (isLoading : Bool) (clipboardData : Option (List ClipItem)) :
    List FileModel :=
  if isLoading then []
  else
    match clipboardData with
    | none => []
    | some items => pasteScan items

/-- The `idea` field of the proxy request body as a JavaScript value;
`undef` models a missing field. -/
inductive JsIdea where
  | undef
  | jnull
  | jstr (s : String)
  | jnum (n : Int)
  | jbool (b : Bool)
deriving DecidableEq, Repr

/-- JavaScript truthiness test `!idea` on the modelled values. -/
def jsFalsy : JsIdea → Bool
  | .undef => true
  | .jnull => true
  | .jstr s => s == ""
  | .jnum n => n == 0
  | .jbool b => !b

/-- The `typeof idea !== 'string'` test. -/
def jsIsString : JsIdea → Bool
  | .jstr _ => true
  | _ => false

/-- The validation guard of the proxy handler:
`!idea || typeof idea !== 'string' || !idea.trim()`.  The trim clause is
only reached for strings thanks to short-circuiting, which the final
`match` mirrors. -/
def ideaRejected (idea : JsIdea) : Bool :=
  jsFalsy idea || !(jsIsString idea) ||
    (match idea with
     | .jstr s => s.trim == ""
     | _ => false)

/-- What the handler does before any provider work: either an early HTTP
response or the decision to proceed with generation. -/
inductive HandlerStage where
  | respond (status : ℕ) (errorBody : Option String)
  | proceed
deriving DecidableEq, Repr

/-- The request-validation path of the proxy `handler` in
`src/api/generate.ts`, up to the point where generation starts.  The
second component records whether the server configuration
(`process.env.GEMINI_API_KEY`) was read. -/
def handlerEarly (method : String) (idea : JsIdea) (apiKey : Option String) :
    HandlerStage × Bool :=
  if method == "OPTIONS" then (.respond 200 none, false)
  else if method != "POST" then (.respond 405 (some "Method not allowed"), false)
  else if ideaRejected idea then (.respond 400 (some "Idea is required"), false)
  else
    match apiKey with
    | none => (.respond 500 (some "API key not configured on server"), true)
    | some _ => (.proceed, true)

/-- Data URL built for uploaded media in Step 2 of both pipelines. -/
def uploadedDataUrl (m : UploadedMedia) : String :=
  "data:" ++ m.mimeType ++ ";base64," ++ m.base64

/-- Media kind derived from the uploaded MIME type (note the source
tests `startsWith('video')`, not `startsWith('video/')`). -/
def uploadedMediaType (m : UploadedMedia) : MediaType :=
  if strStartsWith m.mimeType "video" then MediaType.video else MediaType.image

/-- C3: for every generation call with an uploaded media record, no
image-generation request is issued, and whenever a post list is
returned, it has four posts all carrying the same data URL
`data:<mimeType>;base64,<base64>` with kind `video` exactly when the
MIME type starts with `video` and `image` otherwise. -/
theorem uploaded_media_reused_no_imagegen (idea : String) (m : UploadedMedia)
    (parsed : Except String TextDataJS) (gen : ImageRequest → ImageResult) :
    (generateSocialPostsCore idea (some m) parsed gen).imageRequests = [] ∧
    ∀ posts, (generateSocialPostsCore idea (some m) parsed gen).result = .ok posts →
      posts.map SocialPost.media =
        List.replicate 4 { url := uploadedDataUrl m, type := uploadedMediaType m } := by
  cases parsed with
  | error e =>
    refine ⟨rfl, ?_⟩
    intro posts hposts
    simp [generateSocialPostsCore] at hposts
  | ok t =>
    refine ⟨rfl, ?_⟩
    intro posts hposts
    cases hig : t.instagram with
    | none =>
      simp [generateSocialPostsCore, assemblePosts, wrapError, hig] at hposts
    | some ig =>
      simp [generateSocialPostsCore, assemblePosts, wrapError, hig] at hposts
      subst hposts
      simp [uploadedDataUrl, uploadedMediaType, List.replicate]

/-- C3 witness: instantiation at a concrete uploaded video, exercising
both the no-request part and the returned-posts part. -/
theorem uploaded_media_reused_no_imagegen_witness :
    (generateSocialPostsCore "i" (some { base64 := "QUFB", mimeType := "video/mp4" })
        (.ok { linkedin := some "l", facebook := some "f", twitter := some "t"
             , instagram := some { caption := some "c", hashtags := some ["a"]
                                 , image_prompt := some "p" } })
        (fun _ => { generatedImages := none })).imageRequests = [] ∧
    ([ { platform := .linkedin, text := some "l", hashtags := none
       , media := { url := "data:video/mp4;base64,QUFB", type := .video } }
     , { platform := .facebook, text := some "f", hashtags := none
       , media := { url := "data:video/mp4;base64,QUFB", type := .video } }
     , { platform := .twitter, text := some "t", hashtags := none
       , media := { url := "data:video/mp4;base64,QUFB", type := .video } }
     , { platform := .instagram, text := some "c", hashtags := some ["a"]
       , media := { url := "data:video/mp4;base64,QUFB", type := .video } } ] :
       List SocialPost).map SocialPost.media =
      List.replicate 4
        { url := uploadedDataUrl { base64 := "QUFB", mimeType := "video/mp4" }
        , type := uploadedMediaType { base64 := "QUFB", mimeType := "video/mp4" } } :=
  ⟨(uploaded_media_reused_no_imagegen "i" { base64 := "QUFB", mimeType := "video/mp4" }
      (.ok { linkedin := some "l", facebook := some "f", twitter := some "t"
           , instagram := some { caption := some "c", hashtags := some ["a"]
                               , image_prompt := some "p" } })
      (fun _ => { generatedImages := none })).1
  , (uploaded_media_reused_no_imagegen "i" { base64 := "QUFB", mimeType := "video/mp4" }
      (.ok { linkedin := some "l", facebook := some "f", twitter := some "t"
           , instagram := some { caption := some "c", hashtags := some ["a"]
                               , image_prompt := some "p" } })
      (fun _ => { generatedImages := none })).2 _ rfl⟩

/-- C7: for accepted images with a side beyond 2048 pixels, the
downscaled dimensions have longer side exactly 2048 and preserve the
aspect ratio exactly (in the exact-arithmetic model); images already
within bounds are left unchanged. -/
theorem resize_bounds_and_aspect (w h : ℕ) :
    ((2048 < w ∨ 2048 < h) →
      max (resizeDims w h).1 (resizeDims w h).2 = 2048 ∧
      (resizeDims w h).1 * (h : ℚ) = (resizeDims w h).2 * (w : ℚ)) ∧
    (w ≤ 2048 → h ≤ 2048 → resizeDims w h = ((w : ℚ), (h : ℚ))) := by
  constructor
  · intro hbig
    have hbigQ : (w : ℚ) > MAX_DIMENSION ∨ (h : ℚ) > MAX_DIMENSION := by
      rcases hbig with hw | hh
      · exact Or.inl (by simp only [MAX_DIMENSION]; exact_mod_cast hw)
      · exact Or.inr (by simp only [MAX_DIMENSION]; exact_mod_cast hh)
    by_cases hwh : (w : ℚ) > (h : ℚ)
    · have hw0 : (0 : ℚ) < w := lt_of_le_of_lt (Nat.cast_nonneg h) hwh
      have hdiv : (h : ℚ) / w ≤ 1 := by
        rw [div_le_one hw0]
        exact le_of_lt hwh
      rw [resizeDims, if_pos hbigQ, if_pos hwh]
      constructor
      · simp only [MAX_DIMENSION]
        rw [max_eq_left]
        calc (h : ℚ) / w * 2048 ≤ 1 * 2048 := by
              apply mul_le_mul_of_nonneg_right hdiv; norm_num
          _ = 2048 := by ring
      · field_simp
        ring
    · push_neg at hwh
      have hh0 : (0 : ℚ) < h := by
        rcases hbigQ with hw | hh
        · calc (0 : ℚ) < MAX_DIMENSION := by norm_num [MAX_DIMENSION]
            _ < w := hw
            _ ≤ h := hwh
        · calc (0 : ℚ) < MAX_DIMENSION := by norm_num [MAX_DIMENSION]
            _ < h := hh
      have hdiv : (w : ℚ) / h ≤ 1 := by
        rw [div_le_one hh0]
        exact hwh
      rw [resizeDims, if_pos hbigQ, if_neg (not_lt.mpr hwh)]
      constructor
      · simp only [MAX_DIMENSION]
        rw [max_eq_right]
        calc (w : ℚ) / h * 2048 ≤ 1 * 2048 := by
              apply mul_le_mul_of_nonneg_right hdiv; norm_num
          _ = 2048 := by ring
      · field_simp
        ring
  · intro hw hh
    rw [resizeDims, if_neg]
    push_neg
    constructor
    · simp only [MAX_DIMENSION, not_lt]
      exact_mod_cast hw
    · simp only [MAX_DIMENSION, not_lt]
      exact_mod_cast hh

/-- C7 witness: a 4096 by 1024 image is downscaled with longer side 2048
and exact aspect preservation, while a 100 by 200 image is left
unchanged. -/
theorem resize_bounds_and_aspect_witness :
    (max (resizeDims 4096 1024).1 (resizeDims 4096 1024).2 = 2048 ∧
     (resizeDims 4096 1024).1 * (1024 : ℚ) = (resizeDims 4096 1024).2 * (4096 : ℚ)) ∧
    resizeDims 100 200 = ((100 : ℚ), (200 : ℚ)) := by
  constructor
  · have := (resize_bounds_and_aspect 4096 1024).1 (Or.inl (by norm_num))
    exact_mod_cast this
  · have := (resize_bounds_and_aspect 100 200).2 (by norm_num) (by norm_num)
    exact_mod_cast this

/-- C8: in both `processFile` variants, an oversized file or a file with
a MIME type outside the allow-list is rejected with a message and leaves
the prior `UploadedMedia` state (including `none`) unchanged. -/
theorem process_file_rejects_keep_state
    (compress : FileModel → Except String UploadedMedia)
    (f : FileModel) (prior : Option UploadedMedia) :
    ((f.size > 100 * 1024 * 1024 ∨ f.type ∉ compressAcceptedTypes) →
      (processFileCompress compress (some f) prior).1 = prior ∧
      ((processFileCompress compress (some f) prior).2).isSome = true) ∧
    ((f.size > 20 * 1024 * 1024 ∨ f.type ∉ simpleAcceptedTypes) →
      (processFileSimple (some f) prior).1 = prior ∧
      ((processFileSimple (some f) prior).2).isSome = true) := by
  constructor
  · intro hbad
    by_cases hsize : f.size > 100 * 1024 * 1024
    · simp [processFileCompress, hsize]
    · have htype : f.type ∉ compressAcceptedTypes := by
        rcases hbad with hs | ht
        · exact absurd hs hsize
        · exact ht
      simp [processFileCompress, hsize, htype]
  · intro hbad
    by_cases hsize : f.size > 20 * 1024 * 1024
    · simp [processFileSimple, hsize]
    · have htype : f.type ∉ simpleAcceptedTypes := by
        rcases hbad with hs | ht
        · exact absurd hs hsize
        · exact ht
      simp [processFileSimple, hsize, htype]

/-- C8 witness: a 200MB text file is rejected by both variants with the
state untouched. -/
theorem process_file_rejects_keep_state_witness :
    ((processFileCompress (fun _ => .error "")
        (some { size := 200 * 1024 * 1024, type := "text/plain", dataUrl := "d,x" }) none).1 = none ∧
      ((processFileCompress (fun _ => .error "")
        (some { size := 200 * 1024 * 1024, type := "text/plain", dataUrl := "d,x" }) none).2).isSome = true) ∧
    ((processFileSimple
        (some { size := 200 * 1024 * 1024, type := "text/plain", dataUrl := "d,x" }) none).1 = none ∧
      ((processFileSimple
        (some { size := 200 * 1024 * 1024, type := "text/plain", dataUrl := "d,x" }) none).2).isSome = true) := by
  have h := process_file_rejects_keep_state (fun _ => .error "")
    { size := 200 * 1024 * 1024, type := "text/plain", dataUrl := "d,x" } none
  exact ⟨h.1 (Or.inl (by norm_num)), h.2 (Or.inl (by norm_num))⟩

/-- C10: a POST whose body has a missing, non-string, or
whitespace-only `idea` is answered with status 400 and error body
`Idea is required`, before the server configuration is read (and hence
before any provider call). -/
theorem handler_rejects_missing_idea (idea : JsIdea) (apiKey : Option String)
    (h : (∀ s, idea ≠ .jstr s) ∨ ∃ s, idea = .jstr s ∧ s.trim = "") :
    handlerEarly "POST" idea apiKey =
      (.respond 400 (some "Idea is required"), false) := by
  have hrej : ideaRejected idea = true := by
    rcases h with hns | ⟨s, rfl, htrim⟩
    · cases idea with
      | jstr s => exact absurd rfl (hns s)
      | undef => rfl
      | jnull => rfl
      | jnum n => simp [ideaRejected, jsFalsy, jsIsString]
      | jbool b => simp [ideaRejected, jsFalsy, jsIsString]
    · simp [ideaRejected, jsFalsy, jsIsString, htrim]
  simp [handlerEarly, hrej]

/-- C10 witness: a numeric (non-string) idea with a configured key is
rejected with 400 before the configuration is read. -/
theorem handler_rejects_missing_idea_witness :
    handlerEarly "POST" (.jnum 5) (some "k") =
      (.respond 400 (some "Idea is required"), false) :=
  handler_rejects_missing_idea (.jnum 5) (some "k")
    (Or.inl fun _ h => JsIdea.noConfusion h)

/-- Helper for C9: when some item matches the image-file guard and every
kind-`file` item carries a file, the paste scan hands exactly the first
matching item's file to `processFile`. -/
theorem pasteScan_first_match (items : List ClipItem)
    (hwf : ∀ it ∈ items, it.kind = "file" → it.file.isSome = true)
    (hex : ∃ it ∈ items, isImageFileItem it = true) :
    ∃ it f, items.find? isImageFileItem = some it ∧ it.file = some f ∧
      pasteScan items = [f] := by
  induction items with
  | nil => simp at hex
  | cons a rest ih =>
    by_cases ha : isImageFileItem a = true
    · have hkind : a.kind = "file" := by
        have := ha
        simp only [isImageFileItem, Bool.and_eq_true, beq_iff_eq] at this
        exact this.1
      have hfile : a.file.isSome = true := hwf a (by simp) hkind
      obtain ⟨f, hf⟩ := Option.isSome_iff_exists.mp hfile
      refine ⟨a, f, ?_, hf, ?_⟩
      · simp [List.find?_cons, ha]
      · simp [pasteScan, ha, getAsFile, hkind, hf]
    · have hex' : ∃ it ∈ rest, isImageFileItem it = true := by
        rcases hex with ⟨it, hmem, hit⟩
        rcases List.mem_cons.mp hmem with rfl | hmem'
        · exact absurd hit ha
        · exact ⟨it, hmem', hit⟩
      obtain ⟨it, f, hfind, hf, hscan⟩ :=
        ih (fun x hx hk => hwf x (List.mem_cons_of_mem a hx) hk) hex'
      refine ⟨it, f, ?_, hf, ?_⟩
      · simp [List.find?_cons, ha, hfind]
      · simpa [pasteScan, ha] using hscan

/-- C9: a paste event with at least two image file items (in a state
where each kind-`file` item carries a file, as the browser guarantees)
leads to exactly one file being processed, namely the one of the first
image item in index order, so at most one `UploadedMedia` update can
result. -/
theorem paste_processes_first_image_only (items : List ClipItem)
    (hwf : ∀ it ∈ items, it.kind = "file" → it.file.isSome = true)
    (h2 : 2 ≤ (items.filter isImageFileItem).length) :
    ∃ it f, items.find? isImageFileItem = some it ∧ it.file = some f ∧
      handlePasteFiles false (some items) = [f] := by
  have hex : ∃ it ∈ items, isImageFileItem it = true := by
    rcases hne : items.filter isImageFileItem with _ | ⟨x, xs⟩
    · rw [hne] at h2; simp at h2
    · have hx : x ∈ items.filter isImageFileItem := by rw [hne]; exact List.mem_cons_self x xs
      exact ⟨x, (List.mem_filter.mp hx).1, (List.mem_filter.mp hx).2⟩
  obtain ⟨it, f, hfind, hf, hscan⟩ := pasteScan_first_match items hwf hex
  exact ⟨it, f, hfind, hf, by simpa [handlePasteFiles] using hscan⟩

/-- C9 witness: two pasted images; only the first is processed. -/
theorem paste_processes_first_image_only_witness :
    ∃ it f,
      ([ { kind := "file", type := "image/png"
         , file := some { size := 10, type := "image/png", dataUrl := "data:image/png;base64,QQ" } }
       , { kind := "file", type := "image/jpeg"
         , file := some { size := 20, type := "image/jpeg", dataUrl := "data:image/jpeg;base64,Qg" } }
       ] : List ClipItem).find? isImageFileItem = some it ∧ it.file = some f ∧
      handlePasteFiles false
        (some [ { kind := "file", type := "image/png"
                , file := some { size := 10, type := "image/png", dataUrl := "data:image/png;base64,QQ" } }
              , { kind := "file", type := "image/jpeg"
                , file := some { size := 20, type := "image/jpeg", dataUrl := "data:image/jpeg;base64,Qg" } } ]) = [f] :=
  paste_processes_first_image_only _ (by decide) (by decide)

/-- Characterization of the no-media branch of the direct-call core once
the parsed response carries an `instagram` object. -/
theorem core_noMedia_eq (idea : String) (t : TextDataJS) (ig : InstagramJS)
    (gen : ImageRequest → ImageResult) (hig : t.instagram = some ig) :
    generateSocialPostsCore idea none (.ok t) gen =
      match mapUrls ((imageRequestsFor PLATFORM_ASPECT_RATIOS (imagePromptOf idea ig)).map gen) with
      | .error e =>
        { result := .error ("Failed to generate content: " ++ e)
        , imageRequests := imageRequestsFor PLATFORM_ASPECT_RATIOS (imagePromptOf idea ig) }
      | .ok urls =>
        { result := wrapError (assemblePosts t (urls.map (fun u => { url := u, type := MediaType.image })))
        , imageRequests := imageRequestsFor PLATFORM_ASPECT_RATIOS (imagePromptOf idea ig) } := by
  simp only [generateSocialPostsCore, hig]

/-- Success of `mapUrls` forces success of `urlOfResult` on every
element (the JavaScript map throws at the first failing element). -/
theorem mapUrls_ok_mem (l : List ImageResult) (us : List String)
    (h : mapUrls l = .ok us) : ∀ r ∈ l, ∃ u, urlOfResult r = .ok u := by
  induction l generalizing us with
  | nil => intro r hr; simp at hr
  | cons r rs ih =>
    intro x hx
    cases h1 : urlOfResult r with
    | error e => rw [mapUrls, h1] at h; cases h
    | ok u =>
      cases h2 : mapUrls rs with
      | error e => rw [mapUrls, h1, h2] at h; cases h
      | ok us' =>
        rcases List.mem_cons.mp hx with rfl | hx'
        · exact ⟨u, h1⟩
        · exact ih us' h2 x hx'

/-- C2: in the no-uploaded-media branch, if any of the four issued
image-generation requests comes back with a missing or empty
`generatedImages` array, the whole call fails with an error and no post
list is returned. -/
theorem empty_image_result_fails_all (idea : String) (t : TextDataJS) (ig : InstagramJS)
    (gen : ImageRequest → ImageResult) (hig : t.instagram = some ig)
    (hbad : ∃ req ∈ (generateSocialPostsCore idea none (.ok t) gen).imageRequests,
        (gen req).generatedImages = none ∨ (gen req).generatedImages = some []) :
    ∃ msg, (generateSocialPostsCore idea none (.ok t) gen).result = .error msg := by
  rw [core_noMedia_eq idea t ig gen hig] at hbad ⊢
  cases hm : mapUrls ((imageRequestsFor PLATFORM_ASPECT_RATIOS (imagePromptOf idea ig)).map gen) with
  | error e => exact ⟨"Failed to generate content: " ++ e, rfl⟩
  | ok us =>
    exfalso
    rw [hm] at hbad
    obtain ⟨req, hreq, hempty⟩ := hbad
    have hmem : gen req ∈ (imageRequestsFor PLATFORM_ASPECT_RATIOS (imagePromptOf idea ig)).map gen :=
      List.mem_map_of_mem gen hreq
    obtain ⟨u, hu⟩ := mapUrls_ok_mem _ us hm (gen req) hmem
    rcases hempty with hnone | hnil
    · rw [urlOfResult, hnone] at hu; cases hu
    · rw [urlOfResult, hnil] at hu; cases hu

/-- C2 witness: a provider returning an empty image array for every
request makes the call fail. -/
theorem empty_image_result_fails_all_witness :
    ∃ msg,
      (generateSocialPostsCore "i" none
        (.ok { linkedin := some "l", facebook := some "f", twitter := some "t"
             , instagram := some { caption := some "c", hashtags := some ["a"]
                                 , image_prompt := some "p" } })
        (fun _ => { generatedImages := some [] })).result = .error msg :=
  empty_image_result_fails_all "i"
    { linkedin := some "l", facebook := some "f", twitter := some "t"
    , instagram := some { caption := some "c", hashtags := some ["a"]
                        , image_prompt := some "p" } }
    { caption := some "c", hashtags := some ["a"], image_prompt := some "p" }
    (fun _ => { generatedImages := some [] }) rfl
    ⟨{ model := "imagen-4.0-generate-001", prompt := "p", numberOfImages := 1
     , outputMimeType := "image/jpeg", aspectRatio := "4:3" }
    , by decide, Or.inr rfl⟩

/-- C1: with no uploaded media, a schema-conforming text response and a
provider returning at least one image per request, the call returns
exactly four posts in the order LinkedIn, Facebook, Twitter, Instagram;
only the Instagram post carries hashtags, and they are exactly the
response's `instagram.hashtags`. -/
theorem generation_four_posts_fixed_order (idea l f tw c ip : String)
    (hs : List String) (gen : ImageRequest → ImageResult)
    (hgen : ∀ r, ∃ b rest, (gen r).generatedImages = some (b :: rest)) :
    ∃ m0 m1 m2 m3 : MediaRef,
      (generateSocialPostsCore idea none
        (.ok { linkedin := some l, facebook := some f, twitter := some tw
             , instagram := some { caption := some c, hashtags := some hs
                                 , image_prompt := some ip } }) gen).result =
      .ok [ { platform := .linkedin, text := some l, hashtags := none, media := m0 }
          , { platform := .facebook, text := some f, hashtags := none, media := m1 }
          , { platform := .twitter, text := some tw, hashtags := none, media := m2 }
          , { platform := .instagram, text := some c, hashtags := some hs, media := m3 } ] := by
  set ig : InstagramJS := { caption := some c, hashtags := some hs, image_prompt := some ip } with hig_def
  set t : TextDataJS :=
    { linkedin := some l, facebook := some f, twitter := some tw, instagram := some ig } with ht_def
  rw [core_noMedia_eq idea t ig gen rfl]
  have hreqs : imageRequestsFor PLATFORM_ASPECT_RATIOS (imagePromptOf idea ig) =
      [ { model := "imagen-4.0-generate-001", prompt := imagePromptOf idea ig
        , numberOfImages := 1, outputMimeType := "image/jpeg", aspectRatio := "4:3" }
      , { model := "imagen-4.0-generate-001", prompt := imagePromptOf idea ig
        , numberOfImages := 1, outputMimeType := "image/jpeg", aspectRatio := "1:1" }
      , { model := "imagen-4.0-generate-001", prompt := imagePromptOf idea ig
        , numberOfImages := 1, outputMimeType := "image/jpeg", aspectRatio := "16:9" }
      , { model := "imagen-4.0-generate-001", prompt := imagePromptOf idea ig
        , numberOfImages := 1, outputMimeType := "image/jpeg", aspectRatio := "1:1" } ] := by
    simp [imageRequestsFor, platformsList, PLATFORM_ASPECT_RATIOS]
  rw [hreqs]
  obtain ⟨b0, r0, h0⟩ := hgen
    { model := "imagen-4.0-generate-001", prompt := imagePromptOf idea ig
    , numberOfImages := 1, outputMimeType := "image/jpeg", aspectRatio := "4:3" }
  obtain ⟨b1, r1, h1⟩ := hgen
    { model := "imagen-4.0-generate-001", prompt := imagePromptOf idea ig
    , numberOfImages := 1, outputMimeType := "image/jpeg", aspectRatio := "1:1" }
  obtain ⟨b2, r2, h2⟩ := hgen
    { model := "imagen-4.0-generate-001", prompt := imagePromptOf idea ig
    , numberOfImages := 1, outputMimeType := "image/jpeg", aspectRatio := "16:9" }
  refine ⟨{ url := "data:image/jpeg;base64," ++ b0.imageBytes, type := .image }
        , { url := "data:image/jpeg;base64," ++ b1.imageBytes, type := .image }
        , { url := "data:image/jpeg;base64," ++ b2.imageBytes, type := .image }
        , { url := "data:image/jpeg;base64," ++ b1.imageBytes, type := .image }, ?_⟩
  simp only [List.map_cons, List.map_nil, mapUrls, urlOfResult, h0, h1, h2]
  simp [assemblePosts, wrapError, ht_def, hig_def]

/-- C1 witness: concrete generation cycle with a conforming response
and one image per request. -/
theorem generation_four_posts_fixed_order_witness :
    ∃ m0 m1 m2 m3 : MediaRef,
      (generateSocialPostsCore "Friday pizza special" none
        (.ok { linkedin := some "l", facebook := some "f", twitter := some "t"
             , instagram := some { caption := some "c", hashtags := some ["pizza"]
                                 , image_prompt := some "p" } })
        (fun _ => { generatedImages := some [{ imageBytes := "QkJC" }] })).result =
      .ok [ { platform := .linkedin, text := some "l", hashtags := none, media := m0 }
          , { platform := .facebook, text := some "f", hashtags := none, media := m1 }
          , { platform := .twitter, text := some "t", hashtags := none, media := m2 }
          , { platform := .instagram, text := some "c", hashtags := some ["pizza"], media := m3 } ] :=
  generation_four_posts_fixed_order "Friday pizza special" "l" "f" "t" "c" "p" ["pizza"]
    (fun _ => { generatedImages := some [{ imageBytes := "QkJC" }] })
    (fun _ => ⟨{ imageBytes := "QkJC" }, [], rfl⟩)

/-- C5 counterexample: a valid JSON response that does not conform to
the schema (its `linkedin` field is missing) still yields a full post
list in the uploaded-media flow — the `linkedin` post simply carries an
undefined `text` — instead of failing the request. -/
theorem nonconforming_response_not_fatal_counterexample :
    ({ linkedin := none, facebook := some "f", twitter := some "t"
     , instagram := some { caption := some "c", hashtags := some ["a"]
                         , image_prompt := some "p" } } : TextDataJS).linkedin = none ∧
    (generateSocialPostsCore "i" (some { base64 := "QUFB", mimeType := "image/png" })
      (.ok { linkedin := none, facebook := some "f", twitter := some "t"
           , instagram := some { caption := some "c", hashtags := some ["a"]
                               , image_prompt := some "p" } })
      (fun _ => { generatedImages := none })).result =
      .ok [ { platform := .linkedin, text := none, hashtags := none
            , media := { url := "data:image/png;base64,QUFB", type := .image } }
          , { platform := .facebook, text := some "f", hashtags := none
            , media := { url := "data:image/png;base64,QUFB", type := .image } }
          , { platform := .twitter, text := some "t", hashtags := none
            , media := { url := "data:image/png;base64,QUFB", type := .image } }
          , { platform := .instagram, text := some "c", hashtags := some ["a"]
            , media := { url := "data:image/png;base64,QUFB", type := .image } } ] :=
  ⟨rfl, rfl⟩

/-- C5 amended: malformed JSON (a `JSON.parse` failure) always fails the
whole request, and valid JSON missing the `instagram` object fails it
too (reading a property of `undefined` throws); but — per the
counterexample — a response missing only other fields is not rejected. -/
theorem malformed_or_missing_instagram_fails
    (idea : String) (gen : ImageRequest → ImageResult) :
    (∀ um e, (generateSocialPostsCore idea um (.error e) gen).result =
      .error ("Failed to generate content: " ++ e)) ∧
    (∀ t : TextDataJS, t.instagram = none →
      (generateSocialPostsCore idea none (.ok t) gen).result =
        .error ("Failed to generate content: " ++ undefinedReadMsg "image_prompt")) ∧
    (∀ (m : UploadedMedia) (t : TextDataJS), t.instagram = none →
      (generateSocialPostsCore idea (some m) (.ok t) gen).result =
        .error ("Failed to generate content: " ++ undefinedReadMsg "caption")) := by
  refine ⟨fun um e => rfl, fun t ht => ?_, fun m t ht => ?_⟩
  · simp [generateSocialPostsCore, ht]
  · simp [generateSocialPostsCore, assemblePosts, wrapError, ht]

/-- C5 amended witness: a response that is valid JSON but lacks the
`instagram` object fails both the no-media and the uploaded-media
flow. -/
theorem malformed_or_missing_instagram_fails_witness :
    ((generateSocialPostsCore "i" none
      (.ok { linkedin := some "l", facebook := some "f", twitter := some "t"
           , instagram := none })
      (fun _ => { generatedImages := none })).result =
      .error ("Failed to generate content: " ++ undefinedReadMsg "image_prompt")) ∧
    ((generateSocialPostsCore "i" (some { base64 := "QUFB", mimeType := "image/png" })
      (.ok { linkedin := some "l", facebook := some "f", twitter := some "t"
           , instagram := none })
      (fun _ => { generatedImages := none })).result =
      .error ("Failed to generate content: " ++ undefinedReadMsg "caption")) :=
  ⟨(malformed_or_missing_instagram_fails "i" (fun _ => { generatedImages := none })).2.1
      { linkedin := some "l", facebook := some "f", twitter := some "t", instagram := none }
      rfl
  , (malformed_or_missing_instagram_fails "i" (fun _ => { generatedImages := none })).2.2
      { base64 := "QUFB", mimeType := "image/png" }
      { linkedin := some "l", facebook := some "f", twitter := some "t", instagram := none }
      rfl⟩

/-- Associativity of string concatenation, needed to regroup the prompt
pieces. -/
theorem str_append_assoc (a b c : String) : (a ++ b) ++ c = a ++ (b ++ c) := by
  cases a with
  | mk da =>
    cases b with
    | mk db =>
      cases c with
      | mk dc =>
        show String.mk ((da ++ db) ++ dc) = String.mk (da ++ (db ++ dc))
        rw [List.append_assoc]

/-- Shared part of the two prompt templates up to and including the
newline at which they diverge. -/
def promptHead (mediaType : Option MediaType) : String :=
  (match mediaType with
   | some mt => "You are the social media manager for P&P Pizza, a beloved family-owned pizzeria. Based on the following idea, generate social media posts for LinkedIn, Facebook, Twitter/X, and Instagram." ++ ("\n\nA user-provided " ++ mediaTypeName mt ++ " is included. Analyze it carefully. The generated text content (captions, posts) MUST be directly related to and complementary to THIS specific " ++ mediaTypeName mt ++ ". The goal is to create text that would be posted alongside this " ++ mediaTypeName mt ++ ".")
   | none => "You are the social media manager for P&P Pizza, a beloved family-owned pizzeria. Based on the following idea, generate social media posts for LinkedIn, Facebook, Twitter/X, and Instagram.") ++ "\n"

/-- Shared part of the two prompt templates after the interpolated
idea. -/
def promptTail (mediaType : Option MediaType) : String :=
  "\x22\n    " ++ "\n\nAdhere to the P&P Pizza brand voice guidelines strictly:"
  ++ ("\n- **Primary Source for Brand Voice**: Analyze their website: \x22" ++ PNP_PIZZA_BRAND_VOICE.websiteUrl ++ "\x22")
  ++ ("\n- **Brand Description**: " ++ PNP_PIZZA_BRAND_VOICE.description)
  ++ ("\n- **Keywords to Include**: " ++ PNP_PIZZA_BRAND_VOICE.keywords)
  ++ ("\n- **Phrases to Use**: " ++ PNP_PIZZA_BRAND_VOICE.phrasesToUse)
  ++ ("\n- **Phrases to Avoid**: " ++ PNP_PIZZA_BRAND_VOICE.phrasesToAvoid)
  ++ (match mediaType with
      | some mt => "\n\nFor the \x27image_prompt\x27 field for Instagram, just return a brief, one-sentence description of the provided " ++ mediaTypeName mt ++ ". Do not generate a new image prompt."
      | none => "\n\nFor Instagram, create a compelling image generation prompt based on the core idea and brand voice. The image should look like authentic, delicious food from a classic neighborhood pizzeria.")
  ++ "\n\nProvide the output in the requested JSON format."

/-- Decomposition of both prompt builders around the interpolated idea:
the direct-call prompt inserts four extra space characters on the blank
line before the Idea line, and the two templates agree everywhere
else. -/
theorem buildPrompt_decomp (idea : String) (mt : Option MediaType) :
    buildPrompt idea mt =
      promptHead mt ++ ("    " ++ ("\n    Idea: \x22" ++ (idea ++ promptTail mt))) ∧
    api_buildPrompt idea mt =
      promptHead mt ++ ("\n    Idea: \x22" ++ (idea ++ promptTail mt)) := by
  cases mt with
  | none =>
    constructor
    · simp only [buildPrompt, promptHead, promptTail, str_append_assoc]
      rfl
    · simp only [api_buildPrompt, promptHead, promptTail, str_append_assoc]
      rfl
  | some m =>
    cases m
    · constructor
      · simp only [buildPrompt, promptHead, promptTail, mediaTypeName, str_append_assoc]
        rfl
      · simp only [api_buildPrompt, promptHead, promptTail, mediaTypeName, str_append_assoc]
        rfl
    · constructor
      · simp only [buildPrompt, promptHead, promptTail, mediaTypeName, str_append_assoc]
        rfl
      · simp only [api_buildPrompt, promptHead, promptTail, mediaTypeName, str_append_assoc]
        rfl

set_option maxRecDepth 8192

/-- C4 counterexample: the two implementations do not compute the same
generation requests.  At a concrete input the prompts differ (the
direct-call template carries four extra spaces) and the issued LinkedIn
image request carries aspect ratio 4:3 in the direct-call path but 1:1
in the proxied path. -/
theorem dual_path_divergence_counterexample :
    buildPrompt "x" none ≠ api_buildPrompt "x" none ∧
    PLATFORM_ASPECT_RATIOS .linkedin ≠ API_PLATFORM_ASPECT_RATIOS .linkedin ∧
    (generateSocialPostsCore "x" none
      (.ok { linkedin := some "l", facebook := some "f", twitter := some "t"
           , instagram := some { caption := some "c", hashtags := some ["a"]
                               , image_prompt := some "p" } })
      (fun _ => { generatedImages := some [{ imageBytes := "QkJC" }] })).imageRequests ≠
    (apiGenerateCore "x" none
      (.ok { linkedin := some "l", facebook := some "f", twitter := some "t"
           , instagram := some { caption := some "c", hashtags := some ["a"]
                               , image_prompt := some "p" } })
      (fun _ => { generatedImages := some [{ imageBytes := "QkJC" }] })).imageRequests :=
  ⟨by decide, by decide, by decide⟩

/-- C4 amended: the two implementations differ not only in transport
but also in the four extra whitespace characters of the direct-call
prompt and in the LinkedIn aspect ratio (4:3 direct, 1:1 proxied); with
those exceptions they agree — same prompt text around the idea, same
per-request prompts, same aspect ratios for the other three platforms,
and identical resulting posts whenever the provider's response depends
only on the request prompt. -/
theorem dual_path_near_equivalence :
    (∀ idea mt, buildPrompt idea mt =
      promptHead mt ++ ("    " ++ ("\n    Idea: \x22" ++ (idea ++ promptTail mt)))) ∧
    (∀ idea mt, api_buildPrompt idea mt =
      promptHead mt ++ ("\n    Idea: \x22" ++ (idea ++ promptTail mt))) ∧
    (PLATFORM_ASPECT_RATIOS .linkedin = "4:3" ∧
     API_PLATFORM_ASPECT_RATIOS .linkedin = "1:1" ∧
     API_PLATFORM_ASPECT_RATIOS .facebook = PLATFORM_ASPECT_RATIOS .facebook ∧
     API_PLATFORM_ASPECT_RATIOS .twitter = PLATFORM_ASPECT_RATIOS .twitter ∧
     API_PLATFORM_ASPECT_RATIOS .instagram = PLATFORM_ASPECT_RATIOS .instagram) ∧
    (∀ p, (imageRequestsFor PLATFORM_ASPECT_RATIOS p).map ImageRequest.prompt =
          (imageRequestsFor API_PLATFORM_ASPECT_RATIOS p).map ImageRequest.prompt) ∧
    (∀ idea um parsed gen,
      (∀ r r2 : ImageRequest, r.prompt = r2.prompt → gen r = gen r2) →
      (apiGenerateCore idea um parsed gen).result =
        (generateSocialPostsCore idea um parsed gen).result) := by
  refine ⟨fun idea mt => (buildPrompt_decomp idea mt).1,
          fun idea mt => (buildPrompt_decomp idea mt).2,
          ⟨rfl, rfl, rfl, rfl, rfl⟩,
          fun p => by simp [imageRequestsFor, platformsList],
          fun idea um parsed gen hgen => ?_⟩
  cases parsed with
  | error e => rfl
  | ok t =>
    cases um with
    | some m => rfl
    | none =>
      cases ht : t.instagram with
      | none => simp [apiGenerateCore, generateSocialPostsCore, ht]
      | some ig =>
        have hmaps : (imageRequestsFor API_PLATFORM_ASPECT_RATIOS (imagePromptOf idea ig)).map gen =
            (imageRequestsFor PLATFORM_ASPECT_RATIOS (imagePromptOf idea ig)).map gen := by
          simp only [imageRequestsFor, platformsList, List.map_cons, List.map_nil, List.map_map]
          refine List.ext_get (by simp) ?_
          intro n h1 h2
          match n with
          | 0 => exact hgen _ _ rfl
          | 1 => exact hgen _ _ rfl
          | 2 => exact hgen _ _ rfl
          | 3 => exact hgen _ _ rfl
        simp only [apiGenerateCore, generateSocialPostsCore, ht, hmaps]
        cases mapUrls ((imageRequestsFor PLATFORM_ASPECT_RATIOS (imagePromptOf idea ig)).map gen) <;> rfl

/-- C4 amended witness: with a provider whose response is insensitive to
the request, both paths produce the same result at a concrete input. -/
theorem dual_path_near_equivalence_witness :
    (apiGenerateCore "x" none
      (.ok { linkedin := some "l", facebook := some "f", twitter := some "t"
           , instagram := some { caption := some "c", hashtags := some ["a"]
                               , image_prompt := some "p" } })
      (fun _ => { generatedImages := some [{ imageBytes := "QkJC" }] })).result =
    (generateSocialPostsCore "x" none
      (.ok { linkedin := some "l", facebook := some "f", twitter := some "t"
           , instagram := some { caption := some "c", hashtags := some ["a"]
                               , image_prompt := some "p" } })
      (fun _ => { generatedImages := some [{ imageBytes := "QkJC" }] })).result :=
  dual_path_near_equivalence.2.2.2.2 "x" none
    (.ok { linkedin := some "l", facebook := some "f", twitter := some "t"
         , instagram := some { caption := some "c", hashtags := some ["a"]
                             , image_prompt := some "p" } })
    (fun _ => { generatedImages := some [{ imageBytes := "QkJC" }] })
    (fun _ _ _ => rfl)

/-- Quality floor and step bound for the compression loop, for any
starting quality on the grid `1/2 + k/10`. -/
theorem compressLoop_floor (encSize : ℚ → ℕ) :
    ∀ (fuel k len : ℕ),
      1 / 2 ≤ (compressLoop encSize fuel (1 / 2 + (k : ℚ) / 10) len).1 ∧
      (compressLoop encSize fuel (1 / 2 + (k : ℚ) / 10) len).2.2 ≤ k := by
  intro fuel
  induction fuel with
  | zero =>
    intro k len
    constructor
    · exact le_add_of_nonneg_right (by positivity)
    · exact Nat.zero_le k
  | succ f ih =>
    intro k len
    by_cases hc : ((len : ℚ) > compressTarget ∧ (1 / 2 + (k : ℚ) / 10 : ℚ) > 1 / 2)
    · have hk : k ≠ 0 := by
        rintro rfl
        have := hc.2
        norm_num at this
      obtain ⟨k', rfl⟩ := Nat.exists_eq_succ_of_ne_zero hk
      have hq2 : (1 / 2 + ((k' + 1 : ℕ) : ℚ) / 10 - 1 / 10 : ℚ) = 1 / 2 + (k' : ℚ) / 10 := by
        push_cast
        ring
      rw [compressLoop, if_pos hc, hq2]
      exact ⟨(ih k' (encSize (1 / 2 + (k' : ℚ) / 10))).1,
             Nat.succ_le_succ (ih k' (encSize (1 / 2 + (k' : ℚ) / 10))).2⟩
    · rw [compressLoop, if_neg hc]
      constructor
      · exact le_add_of_nonneg_right (by positivity)
      · exact Nat.zero_le _

/-- At the floor quality `1/2` the loop stops immediately, whatever the
fuel. -/
theorem compressLoop_at_floor (encSize : ℚ → ℕ) :
    ∀ (f len : ℕ),
      compressLoop encSize f (1 / 2 + ((0 : ℕ) : ℚ) / 10) len =
        (1 / 2 + ((0 : ℕ) : ℚ) / 10, len, 0) := by
  intro f len
  cases f with
  | zero => rfl
  | succ f' =>
    rw [compressLoop, if_neg]
    rintro ⟨-, h⟩
    norm_num at h

/-- The loop's outcome does not depend on the fuel once the fuel covers
the number of grid steps above the floor: the while-loop embedding is
faithful. -/
theorem compressLoop_fuel_free (encSize : ℚ → ℕ) :
    ∀ (k f1 f2 len : ℕ), k ≤ f1 → k ≤ f2 →
      compressLoop encSize f1 (1 / 2 + (k : ℚ) / 10) len =
        compressLoop encSize f2 (1 / 2 + (k : ℚ) / 10) len := by
  intro k
  induction k with
  | zero =>
    intro f1 f2 len _ _
    rw [compressLoop_at_floor, compressLoop_at_floor]
  | succ k' ih =>
    intro f1 f2 len h1 h2
    obtain ⟨a, rfl⟩ := Nat.exists_eq_add_of_le h1
    obtain ⟨b, rfl⟩ := Nat.exists_eq_add_of_le h2
    have ha : k' + 1 + a = (k' + a) + 1 := by omega
    have hb : k' + 1 + b = (k' + b) + 1 := by omega
    rw [ha, hb]
    by_cases hc : ((len : ℚ) > compressTarget ∧ (1 / 2 + ((k' + 1 : ℕ) : ℚ) / 10 : ℚ) > 1 / 2)
    · have hq2 : (1 / 2 + ((k' + 1 : ℕ) : ℚ) / 10 - 1 / 10 : ℚ) = 1 / 2 + (k' : ℚ) / 10 := by
        push_cast
        ring
      rw [compressLoop, if_pos hc, hq2, compressLoop, if_pos hc, hq2]
      dsimp only
      rw [ih (k' + a) (k' + b) (encSize (1 / 2 + (k' : ℚ) / 10)) (by omega) (by omega)]
    · rw [compressLoop, if_neg hc, compressLoop, if_neg hc]

/-- C6: starting at quality 0.9, the compression loop performs at most 4
quality-reduction steps, its final quality never drops below the 0.5
floor, and any fuel of at least 4 yields the same outcome (so the
explicit fuel is not a semantic restriction). -/
theorem compression_quality_floor_and_bound (encSize : ℚ → ℕ) (fuel : ℕ)
    (hfuel : 4 ≤ fuel) :
    (compressImageLoop encSize fuel).2.2 ≤ 4 ∧
    1 / 2 ≤ (compressImageLoop encSize fuel).1 ∧
    compressImageLoop encSize fuel = compressImageLoop encSize 4 := by
  have h910 : (9 / 10 : ℚ) = 1 / 2 + ((4 : ℕ) : ℚ) / 10 := by norm_num
  rw [compressImageLoop, compressImageLoop, h910]
  exact ⟨(compressLoop_floor encSize fuel 4 _).2,
         (compressLoop_floor encSize fuel 4 _).1,
         compressLoop_fuel_free encSize 4 fuel 4 _ hfuel le_rfl⟩

/-- C6 witness: with an encoder that always reports an oversized result,
ample fuel still gives at most 4 steps, a floor-respecting quality and a
fuel-independent outcome. -/
theorem compression_quality_floor_and_bound_witness :
    (compressImageLoop (fun _ => 20000000) 10).2.2 ≤ 4 ∧
    1 / 2 ≤ (compressImageLoop (fun _ => 20000000) 10).1 ∧
    compressImageLoop (fun _ => 20000000) 10 = compressImageLoop (fun _ => 20000000) 4 :=
  compression_quality_floor_and_bound (fun _ => 20000000) 10 (by norm_num)

end PnpSocial
